import Mathlib

/-!
# TLS field specifications of benthos (`internal/tls/docs.go`)

A shallow embedding of the composite assemblers `FieldSpec`, `ServerFieldSpec`,
`baseFieldSpec` and `baseCertType` of package `tls`, together with the part of
package `docs` (the field specification node and its builders) they are written
in.  The node type and the builders of package `docs` follow section 3 and
section 4.1 of the specification; the four assemblers are transcribed from the
Go source, call for call.
-/

namespace docs

/-- Modelled from the spec: the scalar sorts of `kind` (section 3, "Scalar(String|Bool|...)");
the Go declaration of the field types lives in `internal/docs`, which is absent. -/
inductive ScalarType where
  | string
  | bool
  deriving DecidableEq, Repr

/-- Modelled from the spec: `kind` is "one of {Scalar(String|Bool|...), Object,
Array-of-Object}" (section 3); the Go declaration lives in `internal/docs`, which is absent. -/
inductive Kind where
  | Scalar (t : ScalarType)
  | Object
  | ArrayOfObject
  deriving DecidableEq, Repr

/-- Modelled from the spec: the values a `default` or an example can hold, the Go values of
type `any` that occur in `internal/tls/docs.go`: strings, booleans, `[]any` and
`map[string]any` (the entries of a map literal are kept in the order they are written). -/
inductive Value where
  | str (s : String)
  | bool (b : Bool)
  | list (xs : List Value)
  | obj (kvs : List (String × Value))

/-- Modelled from the spec: the `FieldSpec` node of section 3 (name, description, kind,
ordered children, optional default, ordered examples, secret, advanced, optional
introduced-at version); the Go struct lives in `internal/docs`, which is absent. -/
structure FieldSpec where
  name : String
  description : String
  kind : Kind
  children : List FieldSpec
  default : Option Value
  examples : List Value
  secret : Bool
  advanced : Bool
  introducedAtVersion : Option String

/-- Modelled from the spec: `FieldString(name, description, examples...)` gives a
Scalar/String spec with no default, not secret, not advanced, no version tag (section 4.1). -/
def FieldString (name description : String) (examples : List Value) : FieldSpec :=
  { name := name, description := description, kind := Kind.Scalar ScalarType.string,
    children := [], default := none, examples := examples,
    secret := false, advanced := false, introducedAtVersion := none }

/-- Modelled from the spec: `FieldBool(name, description)` gives a Scalar/Bool spec with no
default, not secret, not advanced, no version tag (section 4.1). -/
def FieldBool (name description : String) : FieldSpec :=
  { name := name, description := description, kind := Kind.Scalar ScalarType.bool,
    children := [], default := none, examples := [],
    secret := false, advanced := false, introducedAtVersion := none }

/-- Modelled from the spec: `FieldObject(name, description, examples...)` gives an Object spec
with empty children, no default, not secret, not advanced, no version tag (section 4.1). -/
def FieldObject (name description : String) (examples : List Value) : FieldSpec :=
  { name := name, description := description, kind := Kind.Object,
    children := [], default := none, examples := examples,
    secret := false, advanced := false, introducedAtVersion := none }

namespace FieldSpec

/-- Modelled from the spec: the defaulting modifier returns the spec with one more property,
the default value; a second call keeps the last value (section 4.1). -/
def HasDefault (f : FieldSpec) (v : Value) : FieldSpec :=
  { f with default := some v }

/-- Modelled from the spec: the secrecy modifier returns the spec marked `secret` (section 4.1). -/
def Secret (f : FieldSpec) : FieldSpec :=
  { f with secret := true }

/-- Modelled from the spec: the advanced modifier returns the spec marked `advanced`
(section 4.1). -/
def Advanced (f : FieldSpec) : FieldSpec :=
  { f with advanced := true }

/-- Modelled from the spec: the version modifier returns the spec carrying the introduced-at
version tag (section 4.1). -/
def AtVersion (f : FieldSpec) (v : String) : FieldSpec :=
  { f with introducedAtVersion := some v }

/-- Modelled from the spec: `Array()` "converts an Object-kind spec to Array-of-Object-kind"
(section 4.1); the spec says nothing of the other kinds, which are left as they are. -/
def Array (f : FieldSpec) : FieldSpec :=
  match f.kind with
  | Kind.Object => { f with kind := Kind.ArrayOfObject }
  | _ => f

/-- Modelled from the spec: `WithChildren(spec...)` is "valid only on Object or Array-of-Object
kinds; appends the given specs as children in call order; calling it on a Scalar is a caller
contract violation", where the implementation fails fast (section 4.1); the failure is the
`error` result here. -/
def WithChildren (f : FieldSpec) (children : List FieldSpec) : Except String FieldSpec :=
  match f.kind with
  | Kind.Scalar _ => Except.error "WithChildren called on a scalar field"
  | _ => Except.ok { f with children := f.children ++ children }

end FieldSpec

end docs

namespace tls

/-- The function `baseCertType(name, description)` of `internal/tls/docs.go`. -/
def baseCertType (name description : String) : Except String docs.FieldSpec := do
  let f ← (docs.FieldObject
      name description
      [ docs.Value.list [
          docs.Value.obj [
            ("cert", docs.Value.str "foo"),
            ("key", docs.Value.str "bar") ] ],
        docs.Value.list [
          docs.Value.obj [
            ("cert_file", docs.Value.str "./example.pem"),
            ("key_file", docs.Value.str "./example.key") ] ] ]).Array.WithChildren [
    (docs.FieldString "cert" "A plain text certificate to use." []).HasDefault (docs.Value.str ""),
    ((docs.FieldString "key" "A plain text certificate key to use." []).HasDefault
      (docs.Value.str "")).Secret,
    (docs.FieldString "cert_file" "The path of a certificate to use." []).HasDefault
      (docs.Value.str ""),
    (docs.FieldString "key_file" "The path of a certificate key to use." []).HasDefault
      (docs.Value.str ""),
    ((docs.FieldString "password" "A plain text password for when the private key is password encrypted in PKCS#1 or PKCS#8 format. The obsolete `pbeWithMD5AndDES-CBC` algorithm is not supported for the PKCS#8 format.\n\nBecause the obsolete pbeWithMD5AndDES-CBC algorithm does not authenticate the ciphertext, it is vulnerable to padding oracle attacks that can let an attacker recover the plaintext.\n"
      [docs.Value.str "foo", docs.Value.str "$\x7bKEY_PASSWORD\x7d"]).HasDefault
      (docs.Value.str "")).Secret ]
  pure (f.HasDefault (docs.Value.list []))

/-- The function `baseFieldSpec()` of `internal/tls/docs.go`. -/
def baseFieldSpec : Except String docs.FieldSpec := do
  let f ← (docs.FieldObject
      "tls" "Custom TLS settings can be used to override system defaults." []).WithChildren [
    (docs.FieldBool
      "enabled" "Whether custom TLS settings are enabled.").HasDefault (docs.Value.bool false),
    (docs.FieldBool
      "skip_cert_verify" "Whether to skip server side certificate verification.").HasDefault
      (docs.Value.bool false),
    (((docs.FieldBool
      "enable_renegotiation" "Whether to allow the remote server to repeatedly request renegotiation. Enable this option if you're seeing the error message `local error: tls: no renegotiation`.").AtVersion
      "3.45.0").Advanced).HasDefault (docs.Value.bool false),
    ((docs.FieldString
      "root_cas" "An optional root certificate authority to use. This is a string, representing a certificate chain from the parent trusted root certificate, to possible intermediate signing certificates, to the host certificate."
      [docs.Value.str "-----BEGIN CERTIFICATE-----\n...\n-----END CERTIFICATE-----"]).HasDefault
      (docs.Value.str "")).Secret,
    (docs.FieldString
      "root_cas_file" "An optional path of a root certificate authority file to use. This is a file, often with a .pem extension, containing a certificate chain from the parent trusted root certificate, to possible intermediate signing certificates, to the host certificate."
      [docs.Value.str "./root_cas.pem"]).HasDefault (docs.Value.str "") ]
  pure f.Advanced

/-- The function `FieldSpec()` of `internal/tls/docs.go`: a spec for a common TLS field. -/
def FieldSpec : Except String docs.FieldSpec := do
  let base ← baseFieldSpec
  let certs ← baseCertType "client_certs" "A list of client certificates to use. For each certificate either the fields `cert` and `key`, or `cert_file` and `key_file` should be specified, but not both."
  base.WithChildren [certs]

/-- The function `ServerFieldSpec()` of `internal/tls/docs.go`: a spec for a common TLS field
used by a server. -/
def ServerFieldSpec : Except String docs.FieldSpec := do
  let base ← baseFieldSpec
  let certs ← baseCertType "server_certs" "A list of server certificates to use. For each certificate either the fields `cert` and `key`, or `cert_file` and `key_file` should be specified, but not both."
  base.WithChildren [
    certs,
    (docs.FieldBool "require_mutual_tls" "Whether to require mutual TLS authentication. When enabled the server will require a client certificate to be presented during the handshake.").HasDefault
      (docs.Value.bool false),
    ((docs.FieldString
      "client_root_cas" "An optional root certificate authority to use for checking client certs when mTLS is required. This is a string, representing a certificate chain from the parent trusted root certificate, to possible intermediate signing certificates, to the host certificate."
      [docs.Value.str "-----BEGIN CERTIFICATE-----\n...\n-----END CERTIFICATE-----"]).HasDefault
      (docs.Value.str "")).Secret,
    (docs.FieldString
      "client_root_cas_file" "An optional path of a root certificate authority file to use for checking client certs when mTLS is required. This is a file, often with a .pem extension, containing a certificate chain from the parent trusted root certificate, to possible intermediate signing certificates, to the host certificate."
      [docs.Value.str "./root_cas.pem"]).HasDefault (docs.Value.str "") ]

end tls

/-! ## Notions used to state the properties -/

namespace docs

mutual
/-- Every node of a tree, the root first, then the subtrees in declaration order. -/
def FieldSpec.nodes : FieldSpec → List FieldSpec
  | ⟨n, d, k, cs, dv, ex, s, a, v⟩ => ⟨n, d, k, cs, dv, ex, s, a, v⟩ :: nodesOfList cs
/-- The nodes of a sequence of trees, in order. -/
def nodesOfList : List FieldSpec → List FieldSpec
  | [] => []
  | c :: cs => c.nodes ++ nodesOfList cs
end

/-- The names of the immediate children of a node, in order. -/
def FieldSpec.childNames (f : FieldSpec) : List String :=
  f.children.map (fun c => c.name)

/-- The tree without the immediate children that bear one of the given names. -/
def FieldSpec.removeChildren (f : FieldSpec) (names : List String) : FieldSpec :=
  { f with children := f.children.filter (fun c => !(names.contains c.name)) }

/-- The immediate children that bear one of the given names, in order. -/
def FieldSpec.childrenNamed (f : FieldSpec) (names : List String) : List FieldSpec :=
  f.children.filter (fun c => names.contains c.name)

/-- The tree with its top-level name and description overwritten. -/
def FieldSpec.renamed (f : FieldSpec) (name description : String) : FieldSpec :=
  { f with name := name, description := description }

end docs

/-! ## Notions used to state the properties of defaults and examples -/

namespace docs

/-- Whether a value is an object (a Go `map[string]any`). -/
def Value.isObject : Value → Bool
  | Value.obj _ => true
  | _ => false

/-- Whether a value is of the sort a kind asks for: a boolean for a Bool scalar, a string for
a String scalar, an object for an Object, a list of objects for an Array-of-Object. -/
def Kind.admits : Kind → Value → Bool
  | Kind.Scalar ScalarType.bool, Value.bool _ => true
  | Kind.Scalar ScalarType.string, Value.str _ => true
  | Kind.Object, Value.obj _ => true
  | Kind.ArrayOfObject, Value.list xs => xs.all Value.isObject
  | _, _ => false

/-- Whether a kind is one of the scalar kinds. -/
def Kind.isScalar : Kind → Bool
  | Kind.Scalar _ => true
  | _ => false

/-- Whether the default of a node, when it has one, is of the sort its kind asks for. -/
def FieldSpec.defaultTypeChecks (f : FieldSpec) : Bool :=
  match f.default with
  | none => true
  | some v => f.kind.admits v

/-- The keys of an example object, in the order they are written. -/
def objectKeys (o : List (String × Value)) : List String :=
  o.map (fun kv => kv.1)

/-- Whether an object has every one of the given keys. -/
def populatesAll (keys : List String) (o : List (String × Value)) : Bool :=
  keys.all (fun k => (objectKeys o).contains k)

/-- Whether an object has none of the given keys. -/
def populatesNone (keys : List String) (o : List (String × Value)) : Bool :=
  keys.all (fun k => !((objectKeys o).contains k))

/-- The documented rule "either the fields cert and key, or cert_file and key_file, but not
both": one of the two pairs is there in full and the other is not there at all. -/
def obeysEitherOr (o : List (String × Value)) : Bool :=
  (populatesAll ["cert", "key"] o && populatesNone ["cert_file", "key_file"] o) ||
  (populatesAll ["cert_file", "key_file"] o && populatesNone ["cert", "key"] o)

end docs

/-! ## Registration of a custom HTTP server input -/

namespace impl.io

/-- Modelled from the spec: the process-wide component catalog of section 4.3, "keyed by
name": the registered entries (name, hook marker, configuration field descriptor), oldest
first. The Go catalog lives in the internal packages, which are absent. -/
abbrev Catalog (M C : Type) : Type := List (String × M × C)

/-- Modelled from the spec: retrieval of a catalog entry by its name (section 8, "independently
retrievable"). -/
def lookup {M C : Type} (cat : Catalog M C) (name : String) : Option (M × C) :=
  (cat.find? (fun e => e.1 == name)).map (fun e => e.2)

/-- Modelled from the spec: the internal registration function
`io.RegisterCustomHTTPServerInput(name, middlewareConst, conf)` of `internal/impl/io`, which
is absent: it "inserts an entry into a process-wide component catalog keyed by name;
re-registering an existing name is a contract violation (the registry must reject
duplicates)" (section 4.3). The catalog is passed in and handed back; a rejection is the
`error` result and leaves the catalog as it was. -/
def RegisterCustomHTTPServerInput {M C : Type} (name : String) (middlewareConst : M) (conf : C)
    (cat : Catalog M C) : Except String Unit × Catalog M C :=
  match lookup cat name with
  | some _ => (Except.error ("duplicate component name: " ++ name), cat)
  | none => (Except.ok (), cat ++ [(name, middlewareConst, conf)])

end impl.io

namespace components.io

/-- The function `RegisterCustomHTTPServerInput(name, middlewareConst, conf)` of
`public/components/io/package.go`. Its body is the one call
`io.RegisterCustomHTTPServerInput(name, middlewareConst, conf)` of the internal package; that
function is the parameter `register`, and `E` is the sort of its effect. -/
def RegisterCustomHTTPServerInput {M C E : Type} (register : String → M → C → E)
    (name : String) (middlewareConst : M) (conf : C) : E :=
  register name middlewareConst conf

end components.io

/-! ## Two facts about lists, used to read a property of every node off an enumeration -/

theorem forall_mem_of_map_eq {α β : Type} (f : α → β) (P : β → Prop) (l : List α) (r : List β)
    (h : l.map f = r) (hr : ∀ b ∈ r, P b) : ∀ a ∈ l, P (f a) := by
  intro a ha
  exact hr (f a) (h ▸ List.mem_map_of_mem f ha)

theorem forall_filter_of_map_eq {α β : Type} (p : α → Bool) (f : α → β) (P : β → Prop)
    (l : List α) (r : List β) (h : (l.filter p).map f = r) (hr : ∀ b ∈ r, P b) :
    ∀ a ∈ l, p a = true → P (f a) := by
  intro a ha hp
  exact hr (f a) (h ▸ List.mem_map_of_mem f (List.mem_filter.mpr ⟨ha, hp⟩))

/-! ## Retrieval after an insertion at the end of the catalog -/

theorem lookup_append {M C : Type} (cat : impl.io.Catalog M C) (n k : String) (m : M) (c : C) :
    impl.io.lookup (cat ++ [(n, m, c)]) k =
      match impl.io.lookup cat k with
      | some e => some e
      | none => if n = k then some (m, c) else none := by
  unfold impl.io.lookup
  rw [List.find?_append]
  cases h : List.find? (fun e => e.1 == k) cat with
  | some e => simp
  | none =>
    by_cases hk : n = k
    · simp [List.find?, hk]
    · have hb : (n == k) = false := by simpa using hk
      simp [List.find?, hk, hb]

/-! ## The certificate list and the server specification -/

/-- C1: the tree returned by `ServerFieldSpec()` has exactly nine top-level children, in the
order enabled, skip_cert_verify, enable_renegotiation, root_cas, root_cas_file, server_certs,
require_mutual_tls, client_root_cas, client_root_cas_file; its one child named server_certs is
of kind Array-of-Object and has exactly the children cert, key, cert_file, key_file, password,
in that order. -/
theorem ServerFieldSpec_children_in_order :
    ∃ t, tls.ServerFieldSpec = Except.ok t ∧
      t.children.length = 9 ∧
      t.childNames = ["enabled", "skip_cert_verify", "enable_renegotiation", "root_cas",
        "root_cas_file", "server_certs", "require_mutual_tls", "client_root_cas",
        "client_root_cas_file"] ∧
      (t.childrenNamed ["server_certs"]).map (fun c => (c.kind, c.childNames)) =
        [(docs.Kind.ArrayOfObject, ["cert", "key", "cert_file", "key_file", "password"])] :=
  ⟨_, rfl, rfl, rfl, by decide⟩

/-- C2: for every name and description, `baseCertType(name, description)` returns a spec of
kind Array-of-Object (bearing that name and description) whose children are exactly five
String-kind scalars named cert, key, cert_file, key_file, password, in that order, of which
key and password are marked secret and cert, cert_file, key_file are not. -/
theorem baseCertType_shape (name description : String) :
    ∃ t, tls.baseCertType name description = Except.ok t ∧
      t.name = name ∧ t.description = description ∧
      t.kind = docs.Kind.ArrayOfObject ∧
      t.children.map (fun c => (c.name, c.kind, c.secret, c.children.length)) =
        [ ("cert", docs.Kind.Scalar docs.ScalarType.string, false, 0),
          ("key", docs.Kind.Scalar docs.ScalarType.string, true, 0),
          ("cert_file", docs.Kind.Scalar docs.ScalarType.string, false, 0),
          ("key_file", docs.Kind.Scalar docs.ScalarType.string, false, 0),
          ("password", docs.Kind.Scalar docs.ScalarType.string, true, 0) ] :=
  ⟨_, rfl, rfl, rfl, rfl, rfl⟩

/-- C3, as the code has it: for every name and description, each of the five children
(cert, key, cert_file, key_file, password) of `baseCertType(name, description)` carries a
default, and that default is the empty string. -/
theorem baseCertType_children_default_empty (name description : String) :
    ∃ t, tls.baseCertType name description = Except.ok t ∧
      t.children.map (fun c => (c.name, c.default)) =
        [ ("cert", some (docs.Value.str "")),
          ("key", some (docs.Value.str "")),
          ("cert_file", some (docs.Value.str "")),
          ("key_file", some (docs.Value.str "")),
          ("password", some (docs.Value.str "")) ] :=
  ⟨_, rfl, rfl⟩

/-- C3, refuted as stated: in `baseCertType("client_certs", "")` it is not so that every
child has an absent default; the children cert, key, cert_file, key_file and password all
carry one. -/
theorem baseCertType_children_default_not_absent :
    ¬ ∃ t, tls.baseCertType "client_certs" "" = Except.ok t ∧
      t.children.all (fun c => c.default.isNone) = true := by
  rintro ⟨t, ht, hall⟩
  have h : t = _ := Except.ok.inj (ht.symm.trans (rfl : tls.baseCertType "client_certs" "" = Except.ok _))
  subst h
  exact absurd hall (by decide)

/-! ## The base block and the two specifications built on it -/

/-- C4: `baseFieldSpec()` returns an Object-kind spec named "tls", itself marked advanced,
whose children are, in order, enabled (Bool, default false), skip_cert_verify (Bool, default
false), enable_renegotiation (Bool, default false), root_cas (String, secret, default empty
string), root_cas_file (String, not secret, default empty string); and enable_renegotiation
is marked advanced and carries an introduced-at version tag (3.45.0). -/
theorem baseFieldSpec_shape :
    ∃ t, tls.baseFieldSpec = Except.ok t ∧
      t.name = "tls" ∧ t.kind = docs.Kind.Object ∧ t.advanced = true ∧
      t.children.map (fun c => (c.name, c.kind, c.default, c.secret)) =
        [ ("enabled", docs.Kind.Scalar docs.ScalarType.bool,
            some (docs.Value.bool false), false),
          ("skip_cert_verify", docs.Kind.Scalar docs.ScalarType.bool,
            some (docs.Value.bool false), false),
          ("enable_renegotiation", docs.Kind.Scalar docs.ScalarType.bool,
            some (docs.Value.bool false), false),
          ("root_cas", docs.Kind.Scalar docs.ScalarType.string,
            some (docs.Value.str ""), true),
          ("root_cas_file", docs.Kind.Scalar docs.ScalarType.string,
            some (docs.Value.str ""), false) ] ∧
      (t.childrenNamed ["enable_renegotiation"]).map
          (fun c => (c.advanced, c.introducedAtVersion)) = [(true, some "3.45.0")] :=
  ⟨_, rfl, rfl, rfl, rfl, rfl, by decide⟩

/-- C5: `FieldSpec()` is the result of `baseFieldSpec()` with exactly one child appended: it
is the base tree in everything but the children (name, description, kind, default, examples,
flags and version), and its children are those of the base followed by the single spec that
`baseCertType` produces under the name "client_certs". -/
theorem FieldSpec_is_base_with_client_certs :
    ∃ base certs t description,
      tls.baseFieldSpec = Except.ok base ∧
      tls.baseCertType "client_certs" description = Except.ok certs ∧
      tls.FieldSpec = Except.ok t ∧
      t = { base with children := base.children ++ [certs] } ∧
      t.name = base.name ∧ t.description = base.description ∧ t.kind = base.kind ∧
      t.default = base.default ∧ t.examples = base.examples ∧ t.secret = base.secret ∧
      t.advanced = base.advanced ∧ t.introducedAtVersion = base.introducedAtVersion ∧
      t.children = base.children ++ [certs] ∧
      t.children.length = base.children.length + 1 :=
  ⟨_, _, _, _, rfl, rfl, rfl, rfl, rfl, rfl, rfl, rfl, rfl, rfl, rfl, rfl, rfl, rfl⟩

/-- C6: `ServerFieldSpec()` is the result of `baseFieldSpec()` with four children appended
after the base children: the `baseCertType` output named "server_certs", then
require_mutual_tls (Bool, default false), then client_root_cas (String, secret, default empty
string), then client_root_cas_file (String, not secret, default empty string). -/
theorem ServerFieldSpec_is_base_with_four_children :
    ∃ base certs t description rest,
      tls.baseFieldSpec = Except.ok base ∧
      tls.baseCertType "server_certs" description = Except.ok certs ∧
      tls.ServerFieldSpec = Except.ok t ∧
      t = { base with children := base.children ++ certs :: rest } ∧
      rest.map (fun c => (c.name, c.kind, c.default, c.secret)) =
        [ ("require_mutual_tls", docs.Kind.Scalar docs.ScalarType.bool,
            some (docs.Value.bool false), false),
          ("client_root_cas", docs.Kind.Scalar docs.ScalarType.string,
            some (docs.Value.str ""), true),
          ("client_root_cas_file", docs.Kind.Scalar docs.ScalarType.string,
            some (docs.Value.str ""), false) ] :=
  ⟨_, _, _, _, _, rfl, rfl, rfl, rfl, rfl⟩

/-! ## Invariants and relations between the trees -/

/-- C7: in every tree built by the assemblers, `FieldSpec()`, `ServerFieldSpec()` and
`baseCertType(name, description)` for every name and description, at every node the names of
its immediate children are pairwise distinct. -/
theorem sibling_names_distinct (name description : String) :
    (∃ c, tls.FieldSpec = Except.ok c ∧ c.nodes.length = 12 ∧
      ∀ n ∈ c.nodes, n.childNames.Nodup) ∧
    (∃ s, tls.ServerFieldSpec = Except.ok s ∧ s.nodes.length = 15 ∧
      ∀ n ∈ s.nodes, n.childNames.Nodup) ∧
    (∃ t, tls.baseCertType name description = Except.ok t ∧ t.nodes.length = 6 ∧
      ∀ n ∈ t.nodes, n.childNames.Nodup) := by
  refine ⟨⟨_, rfl, rfl, by decide⟩, ⟨_, rfl, rfl, by decide⟩, ⟨_, rfl, rfl, ?_⟩⟩
  exact forall_mem_of_map_eq docs.FieldSpec.childNames List.Nodup _
    [["cert", "key", "cert_file", "key_file", "password"], [], [], [], [], []] rfl (by decide)

/-- C8: the client-facing and the server-facing TLS spec share identical base fields: removing
the client_certs child from `FieldSpec()` and the server_certs, require_mutual_tls,
client_root_cas and client_root_cas_file children from `ServerFieldSpec()` yields two equal
trees (both are the tree of `baseFieldSpec()`); in particular the children enabled,
skip_cert_verify, enable_renegotiation, root_cas, root_cas_file are present in both and equal
in every attribute. -/
theorem client_and_server_share_base :
    ∃ base c s, tls.baseFieldSpec = Except.ok base ∧ tls.FieldSpec = Except.ok c ∧
      tls.ServerFieldSpec = Except.ok s ∧
      c.removeChildren ["client_certs"] =
        s.removeChildren
          ["server_certs", "require_mutual_tls", "client_root_cas", "client_root_cas_file"] ∧
      c.removeChildren ["client_certs"] = base ∧
      c.childrenNamed
          ["enabled", "skip_cert_verify", "enable_renegotiation", "root_cas", "root_cas_file"] =
        s.childrenNamed
          ["enabled", "skip_cert_verify", "enable_renegotiation", "root_cas", "root_cas_file"] ∧
      (c.childrenNamed
          ["enabled", "skip_cert_verify", "enable_renegotiation", "root_cas",
            "root_cas_file"]).map (fun x => x.name) =
        ["enabled", "skip_cert_verify", "enable_renegotiation", "root_cas", "root_cas_file"] :=
  ⟨_, _, _, rfl, rfl, rfl, rfl, rfl, rfl, rfl⟩

/-- C9: for all names n1, n2 and descriptions d1, d2, the trees `baseCertType(n1, d1)` and
`baseCertType(n2, d2)` are identical except for the top-level name and description:
overwriting the top-level name and description of both with the same values yields equal
trees, and kind, default, examples, flags, version and children agree. -/
theorem baseCertType_differs_only_in_name_and_description (n1 d1 n2 d2 n d : String) :
    ∃ t1 t2, tls.baseCertType n1 d1 = Except.ok t1 ∧ tls.baseCertType n2 d2 = Except.ok t2 ∧
      t1.renamed n d = t2.renamed n d ∧
      t1 = t2.renamed n1 d1 ∧
      t1.kind = t2.kind ∧ t1.default = t2.default ∧ t1.examples = t2.examples ∧
      t1.secret = t2.secret ∧ t1.advanced = t2.advanced ∧
      t1.introducedAtVersion = t2.introducedAtVersion ∧ t1.children = t2.children :=
  ⟨_, _, rfl, rfl, rfl, rfl, rfl, rfl, rfl, rfl, rfl, rfl, rfl⟩

/-- C10: every node marked secret anywhere in `FieldSpec()` or `ServerFieldSpec()` has a
default that is the empty string; the secret nodes are root_cas, key and password in the
client tree, and those three and client_root_cas in the server tree. -/
theorem secret_nodes_default_empty :
    ∃ c s, tls.FieldSpec = Except.ok c ∧ tls.ServerFieldSpec = Except.ok s ∧
      (c.nodes.filter (fun n => n.secret)).map (fun n => (n.name, n.default)) =
        [ ("root_cas", some (docs.Value.str "")), ("key", some (docs.Value.str "")),
          ("password", some (docs.Value.str "")) ] ∧
      (s.nodes.filter (fun n => n.secret)).map (fun n => (n.name, n.default)) =
        [ ("root_cas", some (docs.Value.str "")), ("key", some (docs.Value.str "")),
          ("password", some (docs.Value.str "")),
          ("client_root_cas", some (docs.Value.str "")) ] ∧
      (∀ n ∈ c.nodes, n.secret = true → n.default = some (docs.Value.str "")) ∧
      (∀ n ∈ s.nodes, n.secret = true → n.default = some (docs.Value.str "")) := by
  refine ⟨_, _, rfl, rfl, rfl, rfl, ?_, ?_⟩
  · refine forall_filter_of_map_eq (fun n : docs.FieldSpec => n.secret)
      (fun n => (n.name, n.default)) (fun b => b.2 = some (docs.Value.str "")) _
      [ ("root_cas", some (docs.Value.str "")), ("key", some (docs.Value.str "")),
        ("password", some (docs.Value.str "")) ] ?_ ?_
    · rfl
    · simp
  · refine forall_filter_of_map_eq (fun n : docs.FieldSpec => n.secret)
      (fun n => (n.name, n.default)) (fun b => b.2 = some (docs.Value.str "")) _
      [ ("root_cas", some (docs.Value.str "")), ("key", some (docs.Value.str "")),
        ("password", some (docs.Value.str "")),
        ("client_root_cas", some (docs.Value.str "")) ] ?_ ?_
    · rfl
    · simp

/-! ## Defaults, examples, versions and the documented warning -/

/-- C11: for every node of `FieldSpec()` and `ServerFieldSpec()` that carries a default, the
default is of the sort the node's kind asks for (a boolean for Bool scalars, a string for
String scalars, a list of objects for Array-of-Object nodes), and every Scalar-kind node has
no children; 11 of the 12 client nodes and 14 of the 15 server nodes carry a default, and 10
and 13 of them are scalars. -/
theorem defaults_type_check_and_scalars_are_leaves :
    ∃ c s, tls.FieldSpec = Except.ok c ∧ tls.ServerFieldSpec = Except.ok s ∧
      (∀ n ∈ c.nodes, n.defaultTypeChecks = true) ∧
      (∀ n ∈ s.nodes, n.defaultTypeChecks = true) ∧
      (∀ n ∈ c.nodes, n.kind.isScalar = true → n.children.length = 0) ∧
      (∀ n ∈ s.nodes, n.kind.isScalar = true → n.children.length = 0) ∧
      (c.nodes.filter (fun n => n.default.isSome)).length = 11 ∧
      (s.nodes.filter (fun n => n.default.isSome)).length = 14 ∧
      (c.nodes.filter (fun n => n.kind.isScalar)).length = 10 ∧
      (s.nodes.filter (fun n => n.kind.isScalar)).length = 13 :=
  ⟨_, _, rfl, rfl, by decide, by decide, by decide, by decide, rfl, rfl, rfl, rfl⟩

set_option maxRecDepth 100000 in
/-- C14: for every name and description, the description of the one password child of
`baseCertType(name, description)` keeps the security warning: it names the obsolete
pbeWithMD5AndDES-CBC algorithm and holds the sentence saying that this algorithm does not
authenticate the ciphertext and is vulnerable to padding oracle attacks. -/
theorem password_description_keeps_warning (name description : String) :
    ∃ t pw, tls.baseCertType name description = Except.ok t ∧
      t.childrenNamed ["password"] = [pw] ∧
      (∃ before after, pw.description = before ++ "pbeWithMD5AndDES-CBC" ++ after) ∧
      (∃ before after, pw.description = before ++ "Because the obsolete pbeWithMD5AndDES-CBC algorithm does not authenticate the ciphertext, it is vulnerable to padding oracle attacks" ++ after) :=
  ⟨_, _, rfl, rfl,
    ⟨"A plain text password for when the private key is password encrypted in PKCS#1 or PKCS#8 format. The obsolete \x60",
      "\x60 algorithm is not supported for the PKCS#8 format.\n\nBecause the obsolete pbeWithMD5AndDES-CBC algorithm does not authenticate the ciphertext, it is vulnerable to padding oracle attacks that can let an attacker recover the plaintext.\n",
      rfl⟩,
    ⟨"A plain text password for when the private key is password encrypted in PKCS#1 or PKCS#8 format. The obsolete \x60pbeWithMD5AndDES-CBC\x60 algorithm is not supported for the PKCS#8 format.\n\n",
      " that can let an attacker recover the plaintext.\n", rfl⟩⟩

/-- C15: no field inside the TLS block is required: in `FieldSpec()` and in
`ServerFieldSpec()` every proper descendant of the root (11 and 14 nodes) carries a default,
the client_certs and server_certs arrays carry the empty list, and the root "tls" object
itself carries no default. -/
theorem no_field_inside_tls_is_required :
    ∃ c s, tls.FieldSpec = Except.ok c ∧ tls.ServerFieldSpec = Except.ok s ∧
      c.name = "tls" ∧ s.name = "tls" ∧ c.default = none ∧ s.default = none ∧
      (∀ n ∈ docs.nodesOfList c.children, n.default.isSome = true) ∧
      (∀ n ∈ docs.nodesOfList s.children, n.default.isSome = true) ∧
      (docs.nodesOfList c.children).length = 11 ∧
      (docs.nodesOfList s.children).length = 14 ∧
      (c.childrenNamed ["client_certs"]).map (fun x => x.default) =
        [some (docs.Value.list [])] ∧
      (s.childrenNamed ["server_certs"]).map (fun x => x.default) =
        [some (docs.Value.list [])] :=
  ⟨_, _, rfl, rfl, rfl, rfl, rfl, rfl, by decide, by decide, rfl, rfl, rfl, rfl⟩

/-- C16: for every name and description, `baseCertType(name, description)` carries exactly two
examples, each a one-element list holding one object; the first object has the keys cert and
key, the second cert_file and key_file; every key is the name of a child of the spec, and each
object has one of the pairs (cert, key), (cert_file, key_file) in full and nothing of the
other. -/
theorem baseCertType_examples_obey_either_or (name description : String) :
    ∃ t o1 o2, tls.baseCertType name description = Except.ok t ∧
      t.examples = [docs.Value.list [docs.Value.obj o1], docs.Value.list [docs.Value.obj o2]] ∧
      docs.objectKeys o1 = ["cert", "key"] ∧
      docs.objectKeys o2 = ["cert_file", "key_file"] ∧
      (∀ k ∈ docs.objectKeys o1 ++ docs.objectKeys o2, k ∈ t.childNames) ∧
      docs.obeysEitherOr o1 = true ∧ docs.obeysEitherOr o2 = true :=
  ⟨_, _, _, rfl, rfl, rfl, rfl,
    (by decide : ∀ k ∈ ["cert", "key", "cert_file", "key_file"],
      k ∈ ["cert", "key", "cert_file", "key_file", "password"]),
    by decide, by decide⟩

/-- C17: in `FieldSpec()` and in `ServerFieldSpec()` exactly one node carries an introduced-at
version tag, enable_renegotiation, with version 3.45.0; the other 11 and 14 nodes (the root,
the other top-level children and the children of the certificate list) carry none. -/
theorem only_enable_renegotiation_is_versioned :
    ∃ c s, tls.FieldSpec = Except.ok c ∧ tls.ServerFieldSpec = Except.ok s ∧
      (c.nodes.filter (fun n => n.introducedAtVersion.isSome)).map
          (fun n => (n.name, n.introducedAtVersion)) =
        [("enable_renegotiation", some "3.45.0")] ∧
      (s.nodes.filter (fun n => n.introducedAtVersion.isSome)).map
          (fun n => (n.name, n.introducedAtVersion)) =
        [("enable_renegotiation", some "3.45.0")] ∧
      (∀ n ∈ c.nodes, n.name ≠ "enable_renegotiation" → n.introducedAtVersion = none) ∧
      (∀ n ∈ s.nodes, n.name ≠ "enable_renegotiation" → n.introducedAtVersion = none) ∧
      (c.nodes.filter (fun n => n.introducedAtVersion.isNone)).length = 11 ∧
      (s.nodes.filter (fun n => n.introducedAtVersion.isNone)).length = 14 :=
  ⟨_, _, rfl, rfl, by decide, by decide, by decide, by decide, by decide, by decide⟩

/-! ## The registration contract -/

/-- C13: through the public `RegisterCustomHTTPServerInput`. In any catalog, wherever the
entry stands in it, registering a name that is already there fails and leaves the catalog as
it was (so the first entry is kept); registering a name that is not there succeeds, makes the
new entry retrievable and changes the retrieval of no other name. In particular, from a
catalog that has neither of two distinct names: the first registration succeeds, a second one
of the same name fails at once and also after the other name has been registered, and the two
distinct names both succeed and are both retrievable by their names. -/
theorem duplicate_rejected_distinct_accepted {M C : Type} (cat : impl.io.Catalog M C)
    (n1 n2 : String) (m1 m1b m2 : M) (c1 c1b c2 : C)
    (h1 : impl.io.lookup cat n1 = none) (h2 : impl.io.lookup cat n2 = none) (hne : n1 ≠ n2) :
    (∀ (k : impl.io.Catalog M C) (n : String) (e : M × C) (m : M) (c : C),
      impl.io.lookup k n = some e →
      ∃ msg, components.io.RegisterCustomHTTPServerInput impl.io.RegisterCustomHTTPServerInput
          n m c k = (Except.error msg, k)) ∧
    (∀ (k : impl.io.Catalog M C) (n : String) (m : M) (c : C),
      impl.io.lookup k n = none →
      ∃ k2, components.io.RegisterCustomHTTPServerInput impl.io.RegisterCustomHTTPServerInput
          n m c k = (Except.ok (), k2) ∧
        impl.io.lookup k2 n = some (m, c) ∧
        ∀ n3, n3 ≠ n → impl.io.lookup k2 n3 = impl.io.lookup k n3) ∧
    ∃ cat1 cat2,
      components.io.RegisterCustomHTTPServerInput impl.io.RegisterCustomHTTPServerInput
          n1 m1 c1 cat = (Except.ok (), cat1) ∧
      (∃ msg, components.io.RegisterCustomHTTPServerInput impl.io.RegisterCustomHTTPServerInput
          n1 m1b c1b cat1 = (Except.error msg, cat1)) ∧
      impl.io.lookup cat1 n1 = some (m1, c1) ∧
      components.io.RegisterCustomHTTPServerInput impl.io.RegisterCustomHTTPServerInput
          n2 m2 c2 cat1 = (Except.ok (), cat2) ∧
      impl.io.lookup cat2 n1 = some (m1, c1) ∧ impl.io.lookup cat2 n2 = some (m2, c2) ∧
      (∃ msg, components.io.RegisterCustomHTTPServerInput impl.io.RegisterCustomHTTPServerInput
          n1 m1b c1b cat2 = (Except.error msg, cat2)) ∧
      (∃ msg, components.io.RegisterCustomHTTPServerInput impl.io.RegisterCustomHTTPServerInput
          n2 m1b c1b cat2 = (Except.error msg, cat2)) := by
  have dup : ∀ (k : impl.io.Catalog M C) (n : String) (e : M × C) (m : M) (c : C),
      impl.io.lookup k n = some e →
      ∃ msg, components.io.RegisterCustomHTTPServerInput impl.io.RegisterCustomHTTPServerInput
          n m c k = (Except.error msg, k) := by
    intro k n e m c h
    exact ⟨"duplicate component name: " ++ n, by
      simp [components.io.RegisterCustomHTTPServerInput,
        impl.io.RegisterCustomHTTPServerInput, h]⟩
  have fresh : ∀ (k : impl.io.Catalog M C) (n : String) (m : M) (c : C),
      impl.io.lookup k n = none →
      components.io.RegisterCustomHTTPServerInput impl.io.RegisterCustomHTTPServerInput
          n m c k = (Except.ok (), k ++ [(n, m, c)]) ∧
        impl.io.lookup (k ++ [(n, m, c)]) n = some (m, c) ∧
        ∀ n3, n3 ≠ n → impl.io.lookup (k ++ [(n, m, c)]) n3 = impl.io.lookup k n3 := by
    intro k n m c h
    refine ⟨?_, ?_, ?_⟩
    · simp [components.io.RegisterCustomHTTPServerInput,
        impl.io.RegisterCustomHTTPServerInput, h]
    · rw [lookup_append, h]; simp
    · intro n3 h3
      rw [lookup_append]
      cases h4 : impl.io.lookup k n3 with
      | some e => rfl
      | none => simp [Ne.symm h3]
  obtain ⟨r1, e1, f1⟩ := fresh cat n1 m1 c1 h1
  have e2 : impl.io.lookup (cat ++ [(n1, m1, c1)]) n2 = none := by
    rw [f1 n2 (Ne.symm hne)]; exact h2
  obtain ⟨r2, e3, f2⟩ := fresh (cat ++ [(n1, m1, c1)]) n2 m2 c2 e2
  have e4 : impl.io.lookup ((cat ++ [(n1, m1, c1)]) ++ [(n2, m2, c2)]) n1 = some (m1, c1) := by
    rw [f2 n1 hne]; exact e1
  exact ⟨dup, fun k n m c h => ⟨_, fresh k n m c h⟩,
    cat ++ [(n1, m1, c1)], (cat ++ [(n1, m1, c1)]) ++ [(n2, m2, c2)],
    r1, dup _ n1 _ m1b c1b e1, e1, r2, e4, e3, dup _ n1 _ m1b c1b e4, dup _ n2 _ m1b c1b e3⟩

/-- C13 at a concrete input: from the empty catalog, "a" is registered, a second registration
of "a" is rejected, "b" is registered, both are retrievable, and "a" and "b" are rejected
again afterwards. -/
theorem duplicate_rejected_distinct_accepted_witness :
    impl.io.lookup ([] : impl.io.Catalog Nat Nat) "a" = none ∧
    impl.io.lookup ([] : impl.io.Catalog Nat Nat) "b" = none ∧ "a" ≠ "b" ∧
    ∃ cat1 cat2,
      components.io.RegisterCustomHTTPServerInput impl.io.RegisterCustomHTTPServerInput
          "a" 1 10 ([] : impl.io.Catalog Nat Nat) = (Except.ok (), cat1) ∧
      (∃ msg, components.io.RegisterCustomHTTPServerInput impl.io.RegisterCustomHTTPServerInput
          "a" 2 20 cat1 = (Except.error msg, cat1)) ∧
      impl.io.lookup cat1 "a" = some (1, 10) ∧
      components.io.RegisterCustomHTTPServerInput impl.io.RegisterCustomHTTPServerInput
          "b" 3 30 cat1 = (Except.ok (), cat2) ∧
      impl.io.lookup cat2 "a" = some (1, 10) ∧ impl.io.lookup cat2 "b" = some (3, 30) ∧
      (∃ msg, components.io.RegisterCustomHTTPServerInput impl.io.RegisterCustomHTTPServerInput
          "a" 2 20 cat2 = (Except.error msg, cat2)) ∧
      (∃ msg, components.io.RegisterCustomHTTPServerInput impl.io.RegisterCustomHTTPServerInput
          "b" 2 20 cat2 = (Except.error msg, cat2)) :=
  ⟨rfl, rfl, by decide,
    (duplicate_rejected_distinct_accepted [] "a" "b" 1 2 3 10 20 30 rfl rfl (by decide)).2.2⟩

/-- C18: the public `RegisterCustomHTTPServerInput` is a transparent shim: whatever the
internal registration function is and whatever its effect, for every name, middleware marker
and configuration field descriptor the public function is the internal one called with the
same three arguments, in the same order. -/
theorem RegisterCustomHTTPServerInput_is_shim {M C E : Type} (register : String → M → C → E)
    (name : String) (middlewareConst : M) (conf : C) :
    components.io.RegisterCustomHTTPServerInput register name middlewareConst conf =
      register name middlewareConst conf :=
  rfl
